import Mathlib

/-!
Shallow embedding of the ESP32Metrics component (src/src/ESP32Metrics.c) of
the ESP32-WeatherStation-2 repository.

The component is a device-health telemetry facade over a single static
record `s_metrics`.  Every public operation is embedded as a pure Lean
function from an explicit environment (the outcomes of the external
capability-provider calls the C code makes) and the current state to a
result record holding the returned `esp_err_t` code, the value written to
the caller's output slot (`none` when nothing is written), and the new
state.  Null output pointers are modelled by a Boolean flag.

Machine integers are `Nat` with explicit `% 2^32` where the C code relies
on `uint32_t` wraparound (the scheduler-counter deltas, the error-counter
increment).  The C `float` fields carry no arithmetic except in
`GetCpuUsage` and `GetWifiDataRate`, whose computations are modelled over
`ℚ`; a stored temperature is either the NaN sentinel or a numeric value,
modelled by the sum type `FVal`.
-/

/-- `esp_err_t` success code `ESP_OK` (0). -/
def ESP_OK : Nat := 0

/-- `ESP_ERR_NO_MEM` (0x101). -/
def ESP_ERR_NO_MEM : Nat := 0x101

/-- `ESP_ERR_INVALID_ARG` (0x102). -/
def ESP_ERR_INVALID_ARG : Nat := 0x102

/-- `ESP_ERR_INVALID_STATE` (0x103). -/
def ESP_ERR_INVALID_STATE : Nat := 0x103

/-- `ESP_ERR_NOT_SUPPORTED` (0x106). -/
def ESP_ERR_NOT_SUPPORTED : Nat := 0x106

/-- `ESP_ERR_WIFI_NOT_CONNECT` (`ESP_ERR_WIFI_BASE + 15` = 0x300F). -/
def ESP_ERR_WIFI_NOT_CONNECT : Nat := 0x300F

/-- `esp_reset_reason_t` value `ESP_RST_BROWNOUT` (9 in esp-idf's
`esp_system.h`: UNKNOWN 0, POWERON 1, EXT 2, SW 3, PANIC 4, INT_WDT 5,
TASK_WDT 6, WDT 7, DEEPSLEEP 8, BROWNOUT 9, SDIO 10). -/
def ESP_RST_BROWNOUT : Nat := 9

/-- A C `float` value as the temperature path uses it: either the NaN
sentinel or a numeric value.  `GetTemperature` and `Init` only copy such
values around, so no float arithmetic is needed for them. -/
inductive FVal where
  | nan : FVal
  | num (q : ℚ) : FVal
deriving DecidableEq, Repr

/-- The cached `(code, label)` pair `ESP32RebootReason` (the C struct has a
`const char*` label; the initial NULL pointer is modelled as `""`). -/
structure ESP32RebootReason where
  code : Nat
  reason : String
deriving DecidableEq, Repr

/-- The static state record `ESP32Metrics_t s_metrics`, one field per C
field touched by the implementation. -/
structure ESP32Metrics_t where
  is_initialized : Bool
  brownout_count : Nat
  error_count : Nat
  last_uptime : Nat
  temp_sensor_enabled : Bool
  last_temperature : FVal
  prev_total_run_time : Nat
  prev_idle_time : Nat
  reboot_reason : ESP32RebootReason
deriving DecidableEq, Repr

/-- `static ESP32Metrics_t s_metrics = {0};` — the zero-initialised static
record the process starts with (a zeroed C float is `0.0f`, hence
`FVal.num 0`). -/
def s_metrics : ESP32Metrics_t :=
  { is_initialized := false
    brownout_count := 0
    error_count := 0
    last_uptime := 0
    temp_sensor_enabled := false
    last_temperature := FVal.num 0
    prev_total_run_time := 0
    prev_idle_time := 0
    reboot_reason := { code := 0, reason := "" } }

/-- Result of one operation: the returned `esp_err_t`, the value written
through the caller's output pointer (`none` when nothing was written), and
the state after the call. -/
structure OpResult (α : Type) where
  err : Nat
  out : Option α
  st : ESP32Metrics_t
deriving DecidableEq, Repr

/-- `uint32_t` wraparound subtraction `a - b` as the C deltas compute it. -/
def sub32 (a b : Nat) : Nat :=
  (a % 2 ^ 32 + 2 ^ 32 - b % 2 ^ 32) % 2 ^ 32

/-- The table `s_reset_reason_strings` of ESP32Metrics.c, in source order. -/
def s_reset_reason_strings : List String :=
  ["Unknown", "Power-on reset", "External pin reset", "Software reset",
   "Watchdog reset", "Interrupt watchdog reset", "Task watchdog reset",
   "Other watchdog reset", "Brownout reset", "SDIO reset",
   "Deepsleep reset", "Bootstrapping reset"]

/-- `update_reboot_reason`: store the reset code and map it through the
fixed table, with "Unknown reason" for out-of-range codes.  The code read
from `esp_reset_reason()` is the `reason` argument here. -/
def update_reboot_reason (reason : Nat) (st : ESP32Metrics_t) : ESP32Metrics_t :=
  { st with
    reboot_reason :=
      { code := reason
        reason :=
          if reason < s_reset_reason_strings.length then
            s_reset_reason_strings.getD reason "Unknown reason"
          else "Unknown reason" } }

/-- Environment for one `ESP32Metrics_Init` call: the monotonic-clock
reading, the temperature-sensor configure and start results, the seeding
read outcome and the reset-cause register value.

The configure statement at ESP32Metrics.c:59 is syntactically malformed
in the source (`esp_err_t ret = temp_sensor_config_t config = ...`); it
is modelled, per spec §4.1, as configuring the sensor with the default
config and yielding a result code `configRet`. -/
structure InitEnv where
  nowUs : Nat
  configRet : Nat
  startRet : Nat
  seedRead : Except Nat FVal
  resetReason : Nat
deriving Repr

/-- `ESP32Metrics_Init`.  Note that the seeding
`temp_sensor_read_celsius(&s_metrics.last_temperature)` call at line 64
ignores its return value: on a failed seed read nothing is written and
`last_temperature` keeps its previous contents. -/
def ESP32Metrics_Init (env : InitEnv) (st : ESP32Metrics_t) : Nat × ESP32Metrics_t :=
  if st.is_initialized = true then
    (ESP_OK, st)
  else
    let st1 := { st with brownout_count := 0, error_count := 0 }
    let st2 := { st1 with last_uptime := env.nowUs / 1000 }
    let st3 :=
      if env.configRet = ESP_OK then
        if env.startRet = ESP_OK then
          let stE := { st2 with temp_sensor_enabled := true }
          match env.seedRead with
          | Except.ok v => { stE with last_temperature := v }
          | Except.error _ => stE
        else
          { st2 with temp_sensor_enabled := false, last_temperature := FVal.nan }
      else
        { st2 with temp_sensor_enabled := false, last_temperature := FVal.nan }
    let st4 := update_reboot_reason env.resetReason st3
    let st5 :=
      if st4.reboot_reason.code = ESP_RST_BROWNOUT then
        { st4 with brownout_count := 1 }
      else st4
    let st6 := { st5 with prev_total_run_time := 0, prev_idle_time := 0 }
    (ESP_OK, { st6 with is_initialized := true })

/-- `ESP32Metrics_Deinit`: stop the sensor when it was enabled, clear both
flags. -/
def ESP32Metrics_Deinit (st : ESP32Metrics_t) : Nat × ESP32Metrics_t :=
  if st.is_initialized = false then
    (ESP_OK, st)
  else
    (ESP_OK, { st with temp_sensor_enabled := false, is_initialized := false })

/-- Environment for one `ESP32Metrics_GetCpuUsage` call: whether the
`malloc` scratch allocation succeeds, the task list delivered by
`uxTaskGetSystemState` (name, `ulRunTimeCounter` pairs) and the total
run-time counter it reports. -/
structure CpuEnv where
  allocOk : Bool
  tasks : List (String × Nat)
  totalRunTime : Nat
deriving Repr

/-- The idle-task scan of ESP32Metrics.c:136-142: the run-time counter of
the first task named "IDLE", or 0 when no such task exists. -/
def findIdleTime : List (String × Nat) → Nat
  | [] => 0
  | (n, c) :: rest => if n = "IDLE" then c else findIdleTime rest

/-- `ESP32Metrics_GetCpuUsage`.  The usage arithmetic
`100.0f - ((float)idle_delta * 100.0f / (float)total_delta)` is modelled
over `ℚ`; the `uint32_t` deltas wrap via `sub32`. -/
def ESP32Metrics_GetCpuUsage (env : CpuEnv) (st : ESP32Metrics_t)
    (usageNull : Bool) : OpResult ℚ :=
  if st.is_initialized = false then
    ⟨ESP_ERR_INVALID_STATE, none, st⟩
  else if usageNull = true then
    ⟨ESP_ERR_INVALID_ARG, none, st⟩
  else if env.allocOk = false then
    ⟨ESP_ERR_NO_MEM, none, st⟩
  else
    let total_run_time := env.totalRunTime % 2 ^ 32
    let idle_time := findIdleTime env.tasks % 2 ^ 32
    let usage : ℚ :=
      if st.prev_total_run_time > 0 then
        let total_delta := sub32 total_run_time st.prev_total_run_time
        let idle_delta := sub32 idle_time st.prev_idle_time
        if total_delta > 0 then
          100 - ((idle_delta : ℚ) * 100 / (total_delta : ℚ))
        else 0
      else 0
    ⟨ESP_OK, some usage,
      { st with prev_total_run_time := total_run_time,
                prev_idle_time := idle_time }⟩

/-- `ESP32Metrics_GetUptime`: `esp_timer_get_time() / 1000`, also cached
into `last_uptime`. -/
def ESP32Metrics_GetUptime (nowUs : Nat) (st : ESP32Metrics_t)
    (uptimeNull : Bool) : OpResult Nat :=
  if st.is_initialized = false then
    ⟨ESP_ERR_INVALID_STATE, none, st⟩
  else if uptimeNull = true then
    ⟨ESP_ERR_INVALID_ARG, none, st⟩
  else
    let u := nowUs / 1000
    ⟨ESP_OK, some u, { st with last_uptime := u }⟩

/-- `ESP32Metrics_GetTemperature`: a successful live read is stored into
the cache and returned; a failed read returns the provider's code with the
cached `last_temperature` written to the output and the cache untouched. -/
def ESP32Metrics_GetTemperature (read : Except Nat FVal) (st : ESP32Metrics_t)
    (tempNull : Bool) : OpResult FVal :=
  if st.is_initialized = false then
    ⟨ESP_ERR_INVALID_STATE, none, st⟩
  else if tempNull = true then
    ⟨ESP_ERR_INVALID_ARG, none, st⟩
  else if st.temp_sensor_enabled = false then
    ⟨ESP_ERR_NOT_SUPPORTED, some FVal.nan, st⟩
  else
    match read with
    | Except.ok v => ⟨ESP_OK, some v, { st with last_temperature := v }⟩
    | Except.error c => ⟨c, some st.last_temperature, st⟩

/-- `wifi_mode_t` values the status classifier distinguishes. -/
inductive WifiMode where
  | nullMode : WifiMode
  | sta : WifiMode
  | ap : WifiMode
  | apsta : WifiMode
deriving DecidableEq, Repr

/-- `wifi_second_chan_t`: no secondary channel (20 MHz) or one above or
below the primary (40 MHz). -/
inductive SecondChan where
  | chanNone : SecondChan
  | above : SecondChan
  | below : SecondChan
deriving DecidableEq, Repr

/-- `wifi_phy_mode_t` values the data-rate switch distinguishes; `b11` and
`otherMode` both land in the `default` arm of the C switch. -/
inductive PhyMode where
  | lr : PhyMode
  | ht : PhyMode
  | vht : PhyMode
  | b11 : PhyMode
  | otherMode : PhyMode
deriving DecidableEq, Repr

/-- The fields of `wifi_ap_record_t` the estimators read: the RSSI in dBm
(`int8_t`), the primary channel and the secondary-channel setting. -/
structure ApRecord where
  rssi : Int
  primary : Nat
  second : SecondChan
deriving DecidableEq, Repr

/-- `ESP32WifiStatus` as listed by the interface (§6 of the spec). -/
inductive ESP32WifiStatus where
  | notInitialized : ESP32WifiStatus
  | disconnected : ESP32WifiStatus
  | connecting : ESP32WifiStatus
  | disconnecting : ESP32WifiStatus
  | connected : ESP32WifiStatus
deriving DecidableEq, Repr

/-- `ESP32Metrics_GetWifiSignal`: RSSI of the associated AP record on
success; `0` written alongside the propagated error on failure. -/
def ESP32Metrics_GetWifiSignal (apInfo : Except Nat ApRecord)
    (st : ESP32Metrics_t) (rssiNull : Bool) : OpResult Int :=
  if st.is_initialized = false then
    ⟨ESP_ERR_INVALID_STATE, none, st⟩
  else if rssiNull = true then
    ⟨ESP_ERR_INVALID_ARG, none, st⟩
  else
    match apInfo with
    | Except.ok r => ⟨ESP_OK, some r.rssi, st⟩
    | Except.error c => ⟨c, some 0, st⟩

/-- Environment for one `ESP32Metrics_GetWifiStatus` call: the
`esp_wifi_get_mode` outcome and the `esp_wifi_sta_get_ap_info` outcome. -/
structure WifiStatusEnv where
  modeRes : Except Nat WifiMode
  apInfo : Except Nat ApRecord
deriving Repr

/-- `ESP32Metrics_GetWifiStatus`: a mode-query failure is propagated with
`NotInitialized` written; otherwise the call returns `ESP_OK` and the
status encodes the mode / AP-record outcome. -/
def ESP32Metrics_GetWifiStatus (env : WifiStatusEnv) (st : ESP32Metrics_t)
    (statusNull : Bool) : OpResult ESP32WifiStatus :=
  if st.is_initialized = false then
    ⟨ESP_ERR_INVALID_STATE, none, st⟩
  else if statusNull = true then
    ⟨ESP_ERR_INVALID_ARG, none, st⟩
  else
    match env.modeRes with
    | Except.error c => ⟨c, some ESP32WifiStatus.notInitialized, st⟩
    | Except.ok mode =>
      if mode = WifiMode.nullMode ∨ mode = WifiMode.ap then
        ⟨ESP_OK, some ESP32WifiStatus.disconnected, st⟩
      else
        match env.apInfo with
        | Except.ok _ => ⟨ESP_OK, some ESP32WifiStatus.connected, st⟩
        | Except.error c =>
          if c = ESP_ERR_WIFI_NOT_CONNECT then
            ⟨ESP_OK, some ESP32WifiStatus.disconnected, st⟩
          else
            ⟨ESP_OK, some ESP32WifiStatus.notInitialized, st⟩

/-- Environment for one `ESP32Metrics_GetWifiDataRate` call.  The source
ignores the return value of `esp_wifi_sta_get_negotiated_phymode` and only
uses the mode it yields, so the PHY-mode query is modelled as total. -/
structure DataRateEnv where
  apInfo : Except Nat ApRecord
  phyMode : PhyMode
deriving Repr

/-- The nominal peak rate selected by the switch of ESP32Metrics.c:317-338
(Mbps, over ℚ). -/
def nominalRate (phy : PhyMode) (second : SecondChan) : ℚ :=
  match phy with
  | PhyMode.lr => 1 / 2
  | PhyMode.ht => if second ≠ SecondChan.chanNone then 144 else 72
  | PhyMode.vht => if second ≠ SecondChan.chanNone then 200 else 96
  | _ => 11

/-- `ESP32Metrics_GetWifiDataRate`: nominal rate by PHY mode and width,
derated by `fmax(1 - fmax(-90 - rssi, 0) / 40, 0.5)`; on an AP-record
query failure `0` is written and the error propagated. -/
def ESP32Metrics_GetWifiDataRate (env : DataRateEnv) (st : ESP32Metrics_t)
    (rateNull : Bool) : OpResult ℚ :=
  if st.is_initialized = false then
    ⟨ESP_ERR_INVALID_STATE, none, st⟩
  else if rateNull = true then
    ⟨ESP_ERR_INVALID_ARG, none, st⟩
  else
    match env.apInfo with
    | Except.error c => ⟨c, some 0, st⟩
    | Except.ok r =>
      let base := nominalRate env.phyMode r.second
      let signal_factor : ℚ := 1 - (max (-90 - (r.rssi : ℚ)) 0) / 40
      ⟨ESP_OK, some (base * max signal_factor (1 / 2)), st⟩

/-- `ESP32Metrics_GetBrownoutCount`. -/
def ESP32Metrics_GetBrownoutCount (st : ESP32Metrics_t)
    (countNull : Bool) : OpResult Nat :=
  if st.is_initialized = false then
    ⟨ESP_ERR_INVALID_STATE, none, st⟩
  else if countNull = true then
    ⟨ESP_ERR_INVALID_ARG, none, st⟩
  else
    ⟨ESP_OK, some st.brownout_count, st⟩

/-- `ESP32Metrics_GetRebootReason`. -/
def ESP32Metrics_GetRebootReason (st : ESP32Metrics_t)
    (reasonNull : Bool) : OpResult ESP32RebootReason :=
  if st.is_initialized = false then
    ⟨ESP_ERR_INVALID_STATE, none, st⟩
  else if reasonNull = true then
    ⟨ESP_ERR_INVALID_ARG, none, st⟩
  else
    ⟨ESP_OK, some st.reboot_reason, st⟩

/-- `ESP32Metrics_GetLogLevel`: returns `esp_log_level_get(TAG)`, here the
environment value `lvl`. -/
def ESP32Metrics_GetLogLevel (lvl : Nat) (st : ESP32Metrics_t)
    (levelNull : Bool) : OpResult Nat :=
  if st.is_initialized = false then
    ⟨ESP_ERR_INVALID_STATE, none, st⟩
  else if levelNull = true then
    ⟨ESP_ERR_INVALID_ARG, none, st⟩
  else
    ⟨ESP_OK, some lvl, st⟩

/-- `ESP32Metrics_GetErrorCount`. -/
def ESP32Metrics_GetErrorCount (st : ESP32Metrics_t)
    (countNull : Bool) : OpResult Nat :=
  if st.is_initialized = false then
    ⟨ESP_ERR_INVALID_STATE, none, st⟩
  else if countNull = true then
    ⟨ESP_ERR_INVALID_ARG, none, st⟩
  else
    ⟨ESP_OK, some st.error_count, st⟩

/-- `ESP32Metrics_IncrementErrorCount`: `s_metrics.error_count++` with the
natural `uint32_t` wraparound. -/
def ESP32Metrics_IncrementErrorCount (st : ESP32Metrics_t) : Nat × ESP32Metrics_t :=
  if st.is_initialized = false then
    (ESP_ERR_INVALID_STATE, st)
  else
    (ESP_OK, { st with error_count := (st.error_count + 1) % 2 ^ 32 })

/-- Values a `GetMetric` call can write through its `void*` slot, tagged by
the concrete type the dispatched getter uses. -/
inductive MetricValue where
  | cpu (q : ℚ) : MetricValue
  | uptime (n : Nat) : MetricValue
  | signal (r : Int) : MetricValue
  | wifiStatus (s : ESP32WifiStatus) : MetricValue
  | temperature (v : FVal) : MetricValue
  | countVal (n : Nat) : MetricValue
  | reboot (r : ESP32RebootReason) : MetricValue
  | rate (q : ℚ) : MetricValue
  | logLevel (n : Nat) : MetricValue
deriving DecidableEq, Repr

/-- `ESP32MetricType` constants.  The header `ESP32Metrics.h` is not part
of the repository snapshot; the enumerators are taken, per spec §4.6's
closed enumeration, with default C values 0..9 in the order the dispatch
switch lists them. -/
def ESP32_METRIC_CPU_USAGE : Nat := 0

/-- `ESP32_METRIC_UPTIME`. -/
def ESP32_METRIC_UPTIME : Nat := 1

/-- `ESP32_METRIC_WIFI_SIGNAL`. -/
def ESP32_METRIC_WIFI_SIGNAL : Nat := 2

/-- `ESP32_METRIC_WIFI_STATUS`. -/
def ESP32_METRIC_WIFI_STATUS : Nat := 3

/-- `ESP32_METRIC_TEMPERATURE`. -/
def ESP32_METRIC_TEMPERATURE : Nat := 4

/-- `ESP32_METRIC_BROWNOUT_COUNT`. -/
def ESP32_METRIC_BROWNOUT_COUNT : Nat := 5

/-- `ESP32_METRIC_REBOOT_REASON`. -/
def ESP32_METRIC_REBOOT_REASON : Nat := 6

/-- `ESP32_METRIC_WIFI_DATA_RATE`. -/
def ESP32_METRIC_WIFI_DATA_RATE : Nat := 7

/-- `ESP32_METRIC_LOG_LEVEL`. -/
def ESP32_METRIC_LOG_LEVEL : Nat := 8

/-- `ESP32_METRIC_ERROR_COUNT`. -/
def ESP32_METRIC_ERROR_COUNT : Nat := 9

/-- Provider outcomes available to one `ESP32Metrics_GetMetric` call; the
dispatched getter (at most one per call) consumes the fields it needs. -/
structure MetricsEnv where
  cpu : CpuEnv
  nowUs : Nat
  apInfo : Except Nat ApRecord
  modeRes : Except Nat WifiMode
  phyMode : PhyMode
  tempRead : Except Nat FVal
  logLvl : Nat
deriving Repr

/-- Repackage a typed getter result as a `GetMetric` result. -/
def liftRes {α : Type} (f : α → MetricValue) (r : OpResult α) : OpResult MetricValue :=
  ⟨r.err, r.out.map f, r.st⟩

/-- `ESP32Metrics_GetMetric`: the dispatch switch.  The slot passed to the
inner getter is the (non-null, already checked) `value` pointer, so the
inner null-flag is `false`; an unrecognized `type` falls to the `default`
arm returning `ESP_ERR_INVALID_ARG` with nothing written and no provider
consulted. -/
def ESP32Metrics_GetMetric (env : MetricsEnv) (type : Nat) (st : ESP32Metrics_t)
    (valueNull : Bool) : OpResult MetricValue :=
  if st.is_initialized = false then
    ⟨ESP_ERR_INVALID_STATE, none, st⟩
  else if valueNull = true then
    ⟨ESP_ERR_INVALID_ARG, none, st⟩
  else if type = ESP32_METRIC_CPU_USAGE then
    liftRes MetricValue.cpu (ESP32Metrics_GetCpuUsage env.cpu st false)
  else if type = ESP32_METRIC_UPTIME then
    liftRes MetricValue.uptime (ESP32Metrics_GetUptime env.nowUs st false)
  else if type = ESP32_METRIC_WIFI_SIGNAL then
    liftRes MetricValue.signal (ESP32Metrics_GetWifiSignal env.apInfo st false)
  else if type = ESP32_METRIC_WIFI_STATUS then
    liftRes MetricValue.wifiStatus
      (ESP32Metrics_GetWifiStatus ⟨env.modeRes, env.apInfo⟩ st false)
  else if type = ESP32_METRIC_TEMPERATURE then
    liftRes MetricValue.temperature (ESP32Metrics_GetTemperature env.tempRead st false)
  else if type = ESP32_METRIC_BROWNOUT_COUNT then
    liftRes MetricValue.countVal (ESP32Metrics_GetBrownoutCount st false)
  else if type = ESP32_METRIC_REBOOT_REASON then
    liftRes MetricValue.reboot (ESP32Metrics_GetRebootReason st false)
  else if type = ESP32_METRIC_WIFI_DATA_RATE then
    liftRes MetricValue.rate
      (ESP32Metrics_GetWifiDataRate ⟨env.apInfo, env.phyMode⟩ st false)
  else if type = ESP32_METRIC_LOG_LEVEL then
    liftRes MetricValue.logLevel (ESP32Metrics_GetLogLevel env.logLvl st false)
  else if type = ESP32_METRIC_ERROR_COUNT then
    liftRes MetricValue.countVal (ESP32Metrics_GetErrorCount st false)
  else
    ⟨ESP_ERR_INVALID_ARG, none, st⟩

/-- One externally observable call into the facade, with the environment
(provider outcomes) and null-flag it was made with. -/
inductive Event where
  | evInit (env : InitEnv) : Event
  | evDeinit : Event
  | evCpu (env : CpuEnv) (outNull : Bool) : Event
  | evUptime (nowUs : Nat) (outNull : Bool) : Event
  | evWifiSignal (apInfo : Except Nat ApRecord) (outNull : Bool) : Event
  | evWifiStatus (env : WifiStatusEnv) (outNull : Bool) : Event
  | evWifiRate (env : DataRateEnv) (outNull : Bool) : Event
  | evTemp (read : Except Nat FVal) (outNull : Bool) : Event
  | evBrownout (outNull : Bool) : Event
  | evErrCount (outNull : Bool) : Event
  | evIncErr : Event
  | evReboot (outNull : Bool) : Event
  | evLogLevel (lvl : Nat) (outNull : Bool) : Event
  | evMetric (env : MetricsEnv) (type : Nat) (outNull : Bool) : Event

/-- The state transition of one call (the returned code and written value
are dropped). -/
def stepState (e : Event) (st : ESP32Metrics_t) : ESP32Metrics_t :=
  match e with
  | Event.evInit env => (ESP32Metrics_Init env st).2
  | Event.evDeinit => (ESP32Metrics_Deinit st).2
  | Event.evCpu env b => (ESP32Metrics_GetCpuUsage env st b).st
  | Event.evUptime n b => (ESP32Metrics_GetUptime n st b).st
  | Event.evWifiSignal a b => (ESP32Metrics_GetWifiSignal a st b).st
  | Event.evWifiStatus env b => (ESP32Metrics_GetWifiStatus env st b).st
  | Event.evWifiRate env b => (ESP32Metrics_GetWifiDataRate env st b).st
  | Event.evTemp r b => (ESP32Metrics_GetTemperature r st b).st
  | Event.evBrownout b => (ESP32Metrics_GetBrownoutCount st b).st
  | Event.evErrCount b => (ESP32Metrics_GetErrorCount st b).st
  | Event.evIncErr => (ESP32Metrics_IncrementErrorCount st).2
  | Event.evReboot b => (ESP32Metrics_GetRebootReason st b).st
  | Event.evLogLevel l b => (ESP32Metrics_GetLogLevel l st b).st
  | Event.evMetric env t b => (ESP32Metrics_GetMetric env t st b).st

/-- The state after a trace of calls, most recent event first, starting
from the zero-initialised `s_metrics`. -/
def runTrace : List Event → ESP32Metrics_t
  | [] => s_metrics
  | e :: tr => stepState e (runTrace tr)

/-- The temperature values an event's environment offers through a
successful sensor read (a superset of the values actually read, since an
offered read may sit on a branch that never executes it). -/
def eventReads (e : Event) : List FVal :=
  match e with
  | Event.evInit env =>
    match env.seedRead with
    | Except.ok v => [v]
    | Except.error _ => []
  | Event.evTemp r _ =>
    match r with
    | Except.ok v => [v]
    | Except.error _ => []
  | Event.evMetric env _ _ =>
    match env.tempRead with
    | Except.ok v => [v]
    | Except.error _ => []
  | _ => []

/-- All temperature values successfully readable along a trace. -/
def successfulReads : List Event → List FVal
  | [] => []
  | e :: tr => eventReads e ++ successfulReads tr

/-- A concrete initialized state with the temperature capability enabled,
used to instantiate theorems at concrete inputs. -/
def stReady : ESP32Metrics_t :=
  { s_metrics with is_initialized := true, temp_sensor_enabled := true }

/-- A concrete initialized state carrying a stored previous CPU sample
(total 60, idle 10), used to instantiate theorems at concrete inputs. -/
def stPrevSample : ESP32Metrics_t :=
  { stReady with prev_total_run_time := 60, prev_idle_time := 10 }

/-- `sub32` ignores a `% 2^32` already applied to its first argument. -/
theorem sub32_mod_left (a b : Nat) : sub32 (a % 2 ^ 32) b = sub32 a b := by
  unfold sub32
  rw [Nat.mod_mod_of_dvd a (dvd_refl (2 ^ 32))]

/-- C3: with the capability enabled, a failed live read returns the
provider's code with the cached `lastTemperatureC` written and the cache
unchanged; a successful read is stored into the cache and returned with
success. -/
theorem c3_get_temperature_cache_discipline
    (st : ESP32Metrics_t) (c : Nat) (v : FVal)
    (hInit : st.is_initialized = true) (hEn : st.temp_sensor_enabled = true) :
    ESP32Metrics_GetTemperature (Except.error c) st false =
      ⟨c, some st.last_temperature, st⟩ ∧
    ESP32Metrics_GetTemperature (Except.ok v) st false =
      ⟨ESP_OK, some v, { st with last_temperature := v }⟩ := by
  constructor <;> simp [ESP32Metrics_GetTemperature, hInit, hEn]

/-- C3 witness at a concrete state and read outcomes. -/
theorem c3_get_temperature_cache_discipline_witness :
    stReady.is_initialized = true ∧ stReady.temp_sensor_enabled = true ∧
    (ESP32Metrics_GetTemperature (Except.error 263) stReady false =
      ⟨263, some stReady.last_temperature, stReady⟩ ∧
    ESP32Metrics_GetTemperature (Except.ok (FVal.num 25)) stReady false =
      ⟨ESP_OK, some (FVal.num 25), { stReady with last_temperature := FVal.num 25 }⟩) :=
  ⟨rfl, rfl, c3_get_temperature_cache_discipline stReady 263 (FVal.num 25) rfl rfl⟩

/-- C9: an initialized `GetCpuUsage` call with a non-null output, a
successful scratch allocation and no prior sample returns success with
usage exactly 0 and stores the current snapshot as the new baseline. -/
theorem c9_first_cpu_sample_returns_zero
    (env : CpuEnv) (st : ESP32Metrics_t)
    (hInit : st.is_initialized = true) (hAlloc : env.allocOk = true)
    (hPrev : st.prev_total_run_time = 0) :
    ESP32Metrics_GetCpuUsage env st false =
      ⟨ESP_OK, some 0,
        { st with prev_total_run_time := env.totalRunTime % 2 ^ 32,
                  prev_idle_time := findIdleTime env.tasks % 2 ^ 32 }⟩ := by
  simp [ESP32Metrics_GetCpuUsage, hInit, hAlloc, hPrev]

/-- C9 witness at a concrete snapshot. -/
theorem c9_first_cpu_sample_returns_zero_witness :
    stReady.is_initialized = true ∧
    (CpuEnv.mk true [("IDLE", 30)] 100).allocOk = true ∧
    stReady.prev_total_run_time = 0 ∧
    ESP32Metrics_GetCpuUsage (CpuEnv.mk true [("IDLE", 30)] 100) stReady false =
      ⟨ESP_OK, some 0,
        { stReady with
            prev_total_run_time := 100 % 2 ^ 32,
            prev_idle_time := findIdleTime [("IDLE", 30)] % 2 ^ 32 }⟩ :=
  ⟨rfl, rfl, rfl,
    c9_first_cpu_sample_returns_zero (CpuEnv.mk true [("IDLE", 30)] 100) stReady rfl rfl rfl⟩

/-- C8: every operation of §4.2–§4.6 called while not initialized returns
`ESP_ERR_INVALID_STATE`, and does so even when its output pointer is null,
because the `initialized` check precedes the null check. -/
theorem c8_uninitialized_calls_return_invalid_state
    (st : ESP32Metrics_t) (cpuE : CpuEnv) (nowUs : Nat)
    (ap : Except Nat ApRecord) (wsE : WifiStatusEnv) (drE : DataRateEnv)
    (rd : Except Nat FVal) (lvl : Nat) (mE : MetricsEnv) (ty : Nat)
    (h : st.is_initialized = false) :
    (ESP32Metrics_GetCpuUsage cpuE st true).err = ESP_ERR_INVALID_STATE ∧
    (ESP32Metrics_GetUptime nowUs st true).err = ESP_ERR_INVALID_STATE ∧
    (ESP32Metrics_GetWifiSignal ap st true).err = ESP_ERR_INVALID_STATE ∧
    (ESP32Metrics_GetWifiStatus wsE st true).err = ESP_ERR_INVALID_STATE ∧
    (ESP32Metrics_GetWifiDataRate drE st true).err = ESP_ERR_INVALID_STATE ∧
    (ESP32Metrics_GetTemperature rd st true).err = ESP_ERR_INVALID_STATE ∧
    (ESP32Metrics_GetBrownoutCount st true).err = ESP_ERR_INVALID_STATE ∧
    (ESP32Metrics_GetErrorCount st true).err = ESP_ERR_INVALID_STATE ∧
    (ESP32Metrics_IncrementErrorCount st).1 = ESP_ERR_INVALID_STATE ∧
    (ESP32Metrics_GetRebootReason st true).err = ESP_ERR_INVALID_STATE ∧
    (ESP32Metrics_GetLogLevel lvl st true).err = ESP_ERR_INVALID_STATE ∧
    (ESP32Metrics_GetMetric mE ty st true).err = ESP_ERR_INVALID_STATE := by
  refine ⟨?_, ?_, ?_, ?_, ?_, ?_, ?_, ?_, ?_, ?_, ?_, ?_⟩ <;>
    simp [ESP32Metrics_GetCpuUsage, ESP32Metrics_GetUptime,
      ESP32Metrics_GetWifiSignal, ESP32Metrics_GetWifiStatus,
      ESP32Metrics_GetWifiDataRate, ESP32Metrics_GetTemperature,
      ESP32Metrics_GetBrownoutCount, ESP32Metrics_GetErrorCount,
      ESP32Metrics_IncrementErrorCount, ESP32Metrics_GetRebootReason,
      ESP32Metrics_GetLogLevel, ESP32Metrics_GetMetric, h]

/-- C8 witness: the zero-initialised state with null output pointers. -/
theorem c8_uninitialized_calls_return_invalid_state_witness :
    s_metrics.is_initialized = false ∧
    ((ESP32Metrics_GetCpuUsage (CpuEnv.mk true [] 0) s_metrics true).err = ESP_ERR_INVALID_STATE ∧
    (ESP32Metrics_GetUptime 0 s_metrics true).err = ESP_ERR_INVALID_STATE ∧
    (ESP32Metrics_GetWifiSignal (Except.error 1) s_metrics true).err = ESP_ERR_INVALID_STATE ∧
    (ESP32Metrics_GetWifiStatus ⟨Except.error 1, Except.error 1⟩ s_metrics true).err = ESP_ERR_INVALID_STATE ∧
    (ESP32Metrics_GetWifiDataRate ⟨Except.error 1, PhyMode.ht⟩ s_metrics true).err = ESP_ERR_INVALID_STATE ∧
    (ESP32Metrics_GetTemperature (Except.error 1) s_metrics true).err = ESP_ERR_INVALID_STATE ∧
    (ESP32Metrics_GetBrownoutCount s_metrics true).err = ESP_ERR_INVALID_STATE ∧
    (ESP32Metrics_GetErrorCount s_metrics true).err = ESP_ERR_INVALID_STATE ∧
    (ESP32Metrics_IncrementErrorCount s_metrics).1 = ESP_ERR_INVALID_STATE ∧
    (ESP32Metrics_GetRebootReason s_metrics true).err = ESP_ERR_INVALID_STATE ∧
    (ESP32Metrics_GetLogLevel 3 s_metrics true).err = ESP_ERR_INVALID_STATE ∧
    (ESP32Metrics_GetMetric ⟨CpuEnv.mk true [] 0, 0, Except.error 1, Except.error 1,
      PhyMode.ht, Except.error 1, 3⟩ 0 s_metrics true).err = ESP_ERR_INVALID_STATE) :=
  ⟨rfl, c8_uninitialized_calls_return_invalid_state s_metrics (CpuEnv.mk true [] 0) 0
    (Except.error 1) ⟨Except.error 1, Except.error 1⟩ ⟨Except.error 1, PhyMode.ht⟩
    (Except.error 1) 3
    ⟨CpuEnv.mk true [] 0, 0, Except.error 1, Except.error 1, PhyMode.ht, Except.error 1, 3⟩
    0 rfl⟩

/-- C4: when the scratch allocation fails, `GetCpuUsage` returns
`ESP_ERR_NO_MEM` with the state (in particular the stored previous-sample
pair) unchanged; on every other initialized, non-null path the stored
previous sample is overwritten with the current snapshot, whichever
computation branch was taken. -/
theorem c4_cpu_sample_update_discipline
    (env : CpuEnv) (st : ESP32Metrics_t) (hInit : st.is_initialized = true) :
    (env.allocOk = false →
      ESP32Metrics_GetCpuUsage env st false = ⟨ESP_ERR_NO_MEM, none, st⟩) ∧
    (env.allocOk = true →
      (ESP32Metrics_GetCpuUsage env st false).st.prev_total_run_time =
        env.totalRunTime % 2 ^ 32 ∧
      (ESP32Metrics_GetCpuUsage env st false).st.prev_idle_time =
        findIdleTime env.tasks % 2 ^ 32) := by
  constructor
  · intro hA
    simp [ESP32Metrics_GetCpuUsage, hInit, hA]
  · intro hA
    constructor <;> simp [ESP32Metrics_GetCpuUsage, hInit, hA]

/-- C4 witness: both the allocation-failure branch and the update branch
at concrete snapshots. -/
theorem c4_cpu_sample_update_discipline_witness :
    stReady.is_initialized = true ∧
    ((CpuEnv.mk false [] 7).allocOk = false →
      ESP32Metrics_GetCpuUsage (CpuEnv.mk false [] 7) stReady false =
        ⟨ESP_ERR_NO_MEM, none, stReady⟩) ∧
    ((CpuEnv.mk false [] 7).allocOk = true →
      (ESP32Metrics_GetCpuUsage (CpuEnv.mk false [] 7) stReady false).st.prev_total_run_time =
        7 % 2 ^ 32 ∧
      (ESP32Metrics_GetCpuUsage (CpuEnv.mk false [] 7) stReady false).st.prev_idle_time =
        findIdleTime [] % 2 ^ 32) :=
  ⟨rfl, (c4_cpu_sample_update_discipline (CpuEnv.mk false [] 7) stReady rfl).1,
    (c4_cpu_sample_update_discipline (CpuEnv.mk false [] 7) stReady rfl).2⟩

/-- C1: with a prior sample stored, a positive total delta and an idle
delta not exceeding it, an initialized `GetCpuUsage` call with a non-null
output and a successful scratch allocation returns success with a usage
value in the closed interval [0, 100]. -/
theorem c1_cpu_usage_in_unit_interval
    (env : CpuEnv) (st : ESP32Metrics_t)
    (hInit : st.is_initialized = true) (hAlloc : env.allocOk = true)
    (hPrev : 0 < st.prev_total_run_time)
    (hTot : 0 < sub32 env.totalRunTime st.prev_total_run_time)
    (hIdle : sub32 (findIdleTime env.tasks) st.prev_idle_time ≤
      sub32 env.totalRunTime st.prev_total_run_time) :
    (ESP32Metrics_GetCpuUsage env st false).err = ESP_OK ∧
    ∃ q : ℚ, (ESP32Metrics_GetCpuUsage env st false).out = some q ∧
      0 ≤ q ∧ q ≤ 100 := by
  have hTot' : 0 < sub32 (env.totalRunTime % 2 ^ 32) st.prev_total_run_time := by
    rwa [sub32_mod_left]
  have hIdle' : sub32 (findIdleTime env.tasks % 2 ^ 32) st.prev_idle_time ≤
      sub32 (env.totalRunTime % 2 ^ 32) st.prev_total_run_time := by
    rwa [sub32_mod_left, sub32_mod_left]
  have htq : (0 : ℚ) <
      (sub32 (env.totalRunTime % 2 ^ 32) st.prev_total_run_time : ℚ) := by
    exact_mod_cast hTot'
  have hiq : ((sub32 (findIdleTime env.tasks % 2 ^ 32) st.prev_idle_time : ℚ)) ≤
      (sub32 (env.totalRunTime % 2 ^ 32) st.prev_total_run_time : ℚ) := by
    exact_mod_cast hIdle'
  have hout : (ESP32Metrics_GetCpuUsage env st false).out =
      some (100 -
        ((sub32 (findIdleTime env.tasks % 2 ^ 32) st.prev_idle_time : ℚ) * 100 /
          (sub32 (env.totalRunTime % 2 ^ 32) st.prev_total_run_time : ℚ))) := by
    simp only [ESP32Metrics_GetCpuUsage, hInit, hAlloc]
    rw [if_neg (by simp), if_neg (by simp), if_neg (by simp)]
    rw [if_pos hPrev, if_pos hTot']
  have hle : (sub32 (findIdleTime env.tasks % 2 ^ 32) st.prev_idle_time : ℚ) * 100 /
      (sub32 (env.totalRunTime % 2 ^ 32) st.prev_total_run_time : ℚ) ≤ 100 := by
    rw [div_le_iff₀ htq]
    nlinarith
  have hnn : (0 : ℚ) ≤
      (sub32 (findIdleTime env.tasks % 2 ^ 32) st.prev_idle_time : ℚ) * 100 /
        (sub32 (env.totalRunTime % 2 ^ 32) st.prev_total_run_time : ℚ) := by
    positivity
  refine ⟨?_, _, hout, by linarith, by linarith⟩
  simp [ESP32Metrics_GetCpuUsage, hInit, hAlloc]

/-- C1 witness: snapshot pair (total 100, idle 30) over the stored
baseline (total 60, idle 10), giving a usage of 50%. -/
theorem c1_cpu_usage_in_unit_interval_witness :
    stPrevSample.is_initialized = true ∧
    (CpuEnv.mk true [("IDLE", 30)] 100).allocOk = true ∧
    0 < stPrevSample.prev_total_run_time ∧
    0 < sub32 100 stPrevSample.prev_total_run_time ∧
    sub32 (findIdleTime [("IDLE", 30)]) stPrevSample.prev_idle_time ≤
      sub32 100 stPrevSample.prev_total_run_time ∧
    ((ESP32Metrics_GetCpuUsage (CpuEnv.mk true [("IDLE", 30)] 100)
        stPrevSample false).err = ESP_OK ∧
    ∃ q : ℚ, (ESP32Metrics_GetCpuUsage (CpuEnv.mk true [("IDLE", 30)] 100)
        stPrevSample false).out = some q ∧
      0 ≤ q ∧ q ≤ 100) :=
  ⟨rfl, rfl, by decide, by decide, by decide,
    c1_cpu_usage_in_unit_interval (CpuEnv.mk true [("IDLE", 30)] 100)
      stPrevSample rfl rfl (by decide) (by decide) (by decide)⟩

/-- C7: an initialized `GetMetric` call with a non-null slot and a type
outside the closed enumeration returns `ESP_ERR_INVALID_ARG`, writes
nothing, leaves the state unchanged, and is independent of every provider
outcome (no underlying getter or provider is consulted). -/
theorem c7_get_metric_unknown_type
    (env env2 : MetricsEnv) (t : Nat) (st : ESP32Metrics_t)
    (hInit : st.is_initialized = true)
    (hT : t ∉ ([ESP32_METRIC_CPU_USAGE, ESP32_METRIC_UPTIME,
      ESP32_METRIC_WIFI_SIGNAL, ESP32_METRIC_WIFI_STATUS,
      ESP32_METRIC_TEMPERATURE, ESP32_METRIC_BROWNOUT_COUNT,
      ESP32_METRIC_REBOOT_REASON, ESP32_METRIC_WIFI_DATA_RATE,
      ESP32_METRIC_LOG_LEVEL, ESP32_METRIC_ERROR_COUNT] : List Nat)) :
    ESP32Metrics_GetMetric env t st false = ⟨ESP_ERR_INVALID_ARG, none, st⟩ ∧
    ESP32Metrics_GetMetric env t st false = ESP32Metrics_GetMetric env2 t st false := by
  simp only [List.mem_cons, List.mem_singleton, not_or] at hT
  obtain ⟨h0, h1, h2, h3, h4, h5, h6, h7, h8, h9⟩ := hT
  refine ⟨?_, ?_⟩ <;>
    simp [ESP32Metrics_GetMetric, hInit, h0, h1, h2, h3, h4, h5, h6, h7, h8, h9]

/-- C7 witness: type 42 with two unrelated provider environments. -/
theorem c7_get_metric_unknown_type_witness :
    stReady.is_initialized = true ∧
    (42 : Nat) ∉ ([ESP32_METRIC_CPU_USAGE, ESP32_METRIC_UPTIME,
      ESP32_METRIC_WIFI_SIGNAL, ESP32_METRIC_WIFI_STATUS,
      ESP32_METRIC_TEMPERATURE, ESP32_METRIC_BROWNOUT_COUNT,
      ESP32_METRIC_REBOOT_REASON, ESP32_METRIC_WIFI_DATA_RATE,
      ESP32_METRIC_LOG_LEVEL, ESP32_METRIC_ERROR_COUNT] : List Nat) ∧
    (ESP32Metrics_GetMetric ⟨CpuEnv.mk true [] 0, 0, Except.error 1, Except.error 1,
        PhyMode.ht, Except.error 1, 3⟩ 42 stReady false =
      ⟨ESP_ERR_INVALID_ARG, none, stReady⟩ ∧
    ESP32Metrics_GetMetric ⟨CpuEnv.mk true [] 0, 0, Except.error 1, Except.error 1,
        PhyMode.ht, Except.error 1, 3⟩ 42 stReady false =
      ESP32Metrics_GetMetric ⟨CpuEnv.mk false [("IDLE", 9)] 55, 77, Except.ok ⟨-50, 6, SecondChan.above⟩,
        Except.ok WifiMode.sta, PhyMode.vht, Except.ok (FVal.num 21), 4⟩ 42 stReady false) :=
  ⟨rfl, by decide,
    c7_get_metric_unknown_type
      ⟨CpuEnv.mk true [] 0, 0, Except.error 1, Except.error 1, PhyMode.ht, Except.error 1, 3⟩
      ⟨CpuEnv.mk false [("IDLE", 9)] 55, 77, Except.ok ⟨-50, 6, SecondChan.above⟩,
        Except.ok WifiMode.sta, PhyMode.vht, Except.ok (FVal.num 21), 4⟩
      42 stReady rfl (by decide)⟩

/-- C10: when the radio-mode query succeeds, an initialized `GetWifiStatus`
call with a non-null output returns `ESP_OK` whatever the AP-record query
does; a record-query failure shows up only in the status written
(`Disconnected` for `ESP_ERR_WIFI_NOT_CONNECT`, `NotInitialized` for any
other code). -/
theorem c10_wifi_status_swallows_record_failure
    (env : WifiStatusEnv) (st : ESP32Metrics_t) (m : WifiMode) (c : Nat)
    (hInit : st.is_initialized = true) (hm : env.modeRes = Except.ok m) :
    (ESP32Metrics_GetWifiStatus env st false).err = ESP_OK ∧
    (¬(m = WifiMode.nullMode ∨ m = WifiMode.ap) → env.apInfo = Except.error c →
      (ESP32Metrics_GetWifiStatus env st false).out =
        some (if c = ESP_ERR_WIFI_NOT_CONNECT then ESP32WifiStatus.disconnected
              else ESP32WifiStatus.notInitialized)) := by
  constructor
  · simp only [ESP32Metrics_GetWifiStatus, hInit, hm]
    by_cases hMode : m = WifiMode.nullMode ∨ m = WifiMode.ap
    · simp [hMode]
    · simp only [hMode, if_false]
      cases hap : env.apInfo with
      | ok r => simp
      | error c2 =>
        by_cases hc : c2 = ESP_ERR_WIFI_NOT_CONNECT <;> simp [hc]
  · intro hMode hap
    simp only [ESP32Metrics_GetWifiStatus, hInit, hm, hap, hMode]
    by_cases hc : c = ESP_ERR_WIFI_NOT_CONNECT <;> simp [hc]

/-- C10 witness: STA mode with a failed AP-record query
(`ESP_ERR_WIFI_NOT_CONNECT`), yielding success with `Disconnected`. -/
theorem c10_wifi_status_swallows_record_failure_witness :
    stReady.is_initialized = true ∧
    (WifiStatusEnv.mk (Except.ok WifiMode.sta) (Except.error ESP_ERR_WIFI_NOT_CONNECT)).modeRes =
      Except.ok WifiMode.sta ∧
    ((ESP32Metrics_GetWifiStatus
        (WifiStatusEnv.mk (Except.ok WifiMode.sta) (Except.error ESP_ERR_WIFI_NOT_CONNECT))
        stReady false).err = ESP_OK ∧
    (¬(WifiMode.sta = WifiMode.nullMode ∨ WifiMode.sta = WifiMode.ap) →
      (WifiStatusEnv.mk (Except.ok WifiMode.sta)
        (Except.error ESP_ERR_WIFI_NOT_CONNECT)).apInfo =
          Except.error ESP_ERR_WIFI_NOT_CONNECT →
      (ESP32Metrics_GetWifiStatus
        (WifiStatusEnv.mk (Except.ok WifiMode.sta) (Except.error ESP_ERR_WIFI_NOT_CONNECT))
        stReady false).out =
        some (if ESP_ERR_WIFI_NOT_CONNECT = ESP_ERR_WIFI_NOT_CONNECT then
          ESP32WifiStatus.disconnected else ESP32WifiStatus.notInitialized))) :=
  ⟨rfl, rfl,
    c10_wifi_status_swallows_record_failure
      (WifiStatusEnv.mk (Except.ok WifiMode.sta) (Except.error ESP_ERR_WIFI_NOT_CONNECT))
      stReady WifiMode.sta ESP_ERR_WIFI_NOT_CONNECT rfl rfl⟩

/-- C5: an initialized `GetWifiDataRate` call with a non-null output
writes 0 and propagates the error when the AP-record query fails;
otherwise it writes the nominal peak rate selected by PHY mode and width
(long-range 0.5, HT 72/144, VHT 96/200, legacy 11 Mbps) multiplied by
`max (1 - max (-90 - rssi) 0 / 40) (1/2)` and returns success. -/
theorem c5_wifi_data_rate_formula
    (env : DataRateEnv) (st : ESP32Metrics_t) (c : Nat) (r : ApRecord)
    (w : SecondChan) (hInit : st.is_initialized = true) :
    (env.apInfo = Except.error c →
      ESP32Metrics_GetWifiDataRate env st false = ⟨c, some 0, st⟩) ∧
    (env.apInfo = Except.ok r →
      ESP32Metrics_GetWifiDataRate env st false =
        ⟨ESP_OK, some (nominalRate env.phyMode r.second *
          max (1 - max (-90 - (r.rssi : ℚ)) 0 / 40) (1 / 2)), st⟩) ∧
    nominalRate PhyMode.lr w = 1 / 2 ∧
    nominalRate PhyMode.ht SecondChan.chanNone = 72 ∧
    (w ≠ SecondChan.chanNone → nominalRate PhyMode.ht w = 144) ∧
    nominalRate PhyMode.vht SecondChan.chanNone = 96 ∧
    (w ≠ SecondChan.chanNone → nominalRate PhyMode.vht w = 200) ∧
    nominalRate PhyMode.b11 w = 11 ∧
    nominalRate PhyMode.otherMode w = 11 := by
  refine ⟨?_, ?_, rfl, by simp [nominalRate], ?_, by simp [nominalRate], ?_, rfl, rfl⟩
  · intro hap
    simp [ESP32Metrics_GetWifiDataRate, hInit, hap]
  · intro hap
    simp [ESP32Metrics_GetWifiDataRate, hInit, hap]
  · intro hw
    simp [nominalRate, hw]
  · intro hw
    simp [nominalRate, hw]

/-- C5 witness: VHT at 40 MHz with RSSI −110 dBm, derated to the 0.5
floor, hence 100 Mbps. -/
theorem c5_wifi_data_rate_formula_witness :
    ((DataRateEnv.mk (Except.ok ⟨-110, 6, SecondChan.above⟩) PhyMode.vht).apInfo =
        Except.error 12303 →
      ESP32Metrics_GetWifiDataRate
        (DataRateEnv.mk (Except.ok ⟨-110, 6, SecondChan.above⟩) PhyMode.vht) stReady false =
          ⟨12303, some 0, stReady⟩) ∧
    ((DataRateEnv.mk (Except.ok ⟨-110, 6, SecondChan.above⟩) PhyMode.vht).apInfo =
        Except.ok ⟨-110, 6, SecondChan.above⟩ →
      ESP32Metrics_GetWifiDataRate
        (DataRateEnv.mk (Except.ok ⟨-110, 6, SecondChan.above⟩) PhyMode.vht) stReady false =
          ⟨ESP_OK, some (nominalRate PhyMode.vht (ApRecord.mk (-110) 6 SecondChan.above).second *
            max (1 - max (-90 - ((ApRecord.mk (-110) 6 SecondChan.above).rssi : ℚ)) 0 / 40)
              (1 / 2)), stReady⟩) ∧
    nominalRate PhyMode.lr SecondChan.above = 1 / 2 ∧
    nominalRate PhyMode.ht SecondChan.chanNone = 72 ∧
    (SecondChan.above ≠ SecondChan.chanNone → nominalRate PhyMode.ht SecondChan.above = 144) ∧
    nominalRate PhyMode.vht SecondChan.chanNone = 96 ∧
    (SecondChan.above ≠ SecondChan.chanNone → nominalRate PhyMode.vht SecondChan.above = 200) ∧
    nominalRate PhyMode.b11 SecondChan.above = 11 ∧
    nominalRate PhyMode.otherMode SecondChan.above = 11 :=
  c5_wifi_data_rate_formula
    (DataRateEnv.mk (Except.ok ⟨-110, 6, SecondChan.above⟩) PhyMode.vht)
    stReady 12303 ⟨-110, 6, SecondChan.above⟩ SecondChan.above rfl

/-- After `Init` on a non-initialized state the error counter is 0, the
brownout counter is 1 exactly when the reset cause is brownout, and the
lifecycle flag is set. -/
theorem init_counters_on_uninitialized (env : InitEnv) (st : ESP32Metrics_t)
    (h : st.is_initialized = false) :
    (ESP32Metrics_Init env st).2.error_count = 0 ∧
    (ESP32Metrics_Init env st).2.brownout_count =
      (if env.resetReason = ESP_RST_BROWNOUT then 1 else 0) ∧
    (ESP32Metrics_Init env st).2.is_initialized = true := by
  cases hs : env.seedRead <;>
    by_cases hc : env.configRet = ESP_OK <;>
      by_cases hst : env.startRet = ESP_OK <;>
        by_cases hb : env.resetReason = ESP_RST_BROWNOUT <;>
          simp [ESP32Metrics_Init, update_reboot_reason, h, hc, hst, hb, hs]

/-- `Deinit` always leaves the lifecycle flag cleared. -/
theorem deinit_clears_flag (st : ESP32Metrics_t) :
    (ESP32Metrics_Deinit st).2.is_initialized = false := by
  unfold ESP32Metrics_Deinit
  split
  · assumption
  · rfl

/-- C2 counterexample: from the reachable zero-initialised state, run
`Deinit` then `Init` in an environment whose reset cause is brownout
(code 9): the following `GetBrownoutCount` succeeds with value 1, not 0. -/
theorem c2_counterexample_brownout_reset :
    runTrace [] = s_metrics ∧
    (ESP32Metrics_GetBrownoutCount
      (ESP32Metrics_Init ⟨1000, 0, 0, Except.error 1, 9⟩
        (ESP32Metrics_Deinit s_metrics).2).2 false).err = ESP_OK ∧
    (ESP32Metrics_GetBrownoutCount
      (ESP32Metrics_Init ⟨1000, 0, 0, Except.error 1, 9⟩
        (ESP32Metrics_Deinit s_metrics).2).2 false).out = some 1 ∧
    (ESP32Metrics_GetBrownoutCount
      (ESP32Metrics_Init ⟨1000, 0, 0, Except.error 1, 9⟩
        (ESP32Metrics_Deinit s_metrics).2).2 false).out ≠ some 0 :=
  ⟨rfl, rfl, rfl, by decide⟩

/-- C2 amended: for every state and every `Init` environment, `Deinit`
followed by `Init` resets `errorCount` to 0, and resets `brownoutCount`
to 0 unless the reset cause read during `Init` is brownout, in which case
`brownoutCount` is 1; the two getters then return success with exactly
those values. -/
theorem c2_amended_deinit_init_resets_counters
    (env : InitEnv) (st : ESP32Metrics_t) :
    (ESP32Metrics_GetErrorCount
      (ESP32Metrics_Init env (ESP32Metrics_Deinit st).2).2 false).err = ESP_OK ∧
    (ESP32Metrics_GetErrorCount
      (ESP32Metrics_Init env (ESP32Metrics_Deinit st).2).2 false).out = some 0 ∧
    (ESP32Metrics_GetBrownoutCount
      (ESP32Metrics_Init env (ESP32Metrics_Deinit st).2).2 false).err = ESP_OK ∧
    (ESP32Metrics_GetBrownoutCount
      (ESP32Metrics_Init env (ESP32Metrics_Deinit st).2).2 false).out =
        some (if env.resetReason = ESP_RST_BROWNOUT then 1 else 0) := by
  obtain ⟨hErr, hBr, hFlag⟩ :=
    init_counters_on_uninitialized env (ESP32Metrics_Deinit st).2 (deinit_clears_flag st)
  refine ⟨?_, ?_, ?_, ?_⟩ <;>
    simp [ESP32Metrics_GetErrorCount, ESP32Metrics_GetBrownoutCount, hFlag, hErr, hBr]

/-- `GetCpuUsage` never changes the cached temperature. -/
theorem getCpuUsage_keeps_temperature (env : CpuEnv) (st : ESP32Metrics_t) (b : Bool) :
    (ESP32Metrics_GetCpuUsage env st b).st.last_temperature = st.last_temperature := by
  unfold ESP32Metrics_GetCpuUsage
  split_ifs <;> rfl

/-- `GetUptime` never changes the cached temperature. -/
theorem getUptime_keeps_temperature (n : Nat) (st : ESP32Metrics_t) (b : Bool) :
    (ESP32Metrics_GetUptime n st b).st.last_temperature = st.last_temperature := by
  unfold ESP32Metrics_GetUptime
  split_ifs <;> rfl

/-- `GetWifiSignal` never changes the state. -/
theorem getWifiSignal_state_id (a : Except Nat ApRecord) (st : ESP32Metrics_t) (b : Bool) :
    (ESP32Metrics_GetWifiSignal a st b).st = st := by
  cases a <;> simp only [ESP32Metrics_GetWifiSignal] <;> split_ifs <;> rfl

/-- `GetWifiStatus` never changes the state. -/
theorem getWifiStatus_state_id (env : WifiStatusEnv) (st : ESP32Metrics_t) (b : Bool) :
    (ESP32Metrics_GetWifiStatus env st b).st = st := by
  obtain ⟨mr, ai⟩ := env
  cases mr <;> cases ai <;> simp only [ESP32Metrics_GetWifiStatus] <;> split_ifs <;> rfl

/-- `GetWifiDataRate` never changes the state. -/
theorem getWifiDataRate_state_id (env : DataRateEnv) (st : ESP32Metrics_t) (b : Bool) :
    (ESP32Metrics_GetWifiDataRate env st b).st = st := by
  obtain ⟨ai, pm⟩ := env
  cases ai <;> simp only [ESP32Metrics_GetWifiDataRate] <;> split_ifs <;> rfl

/-- `GetBrownoutCount` never changes the state. -/
theorem getBrownoutCount_state_id (st : ESP32Metrics_t) (b : Bool) :
    (ESP32Metrics_GetBrownoutCount st b).st = st := by
  unfold ESP32Metrics_GetBrownoutCount
  split_ifs <;> rfl

/-- `GetErrorCount` never changes the state. -/
theorem getErrorCount_state_id (st : ESP32Metrics_t) (b : Bool) :
    (ESP32Metrics_GetErrorCount st b).st = st := by
  unfold ESP32Metrics_GetErrorCount
  split_ifs <;> rfl

/-- `GetRebootReason` never changes the state. -/
theorem getRebootReason_state_id (st : ESP32Metrics_t) (b : Bool) :
    (ESP32Metrics_GetRebootReason st b).st = st := by
  unfold ESP32Metrics_GetRebootReason
  split_ifs <;> rfl

/-- `GetLogLevel` never changes the state. -/
theorem getLogLevel_state_id (l : Nat) (st : ESP32Metrics_t) (b : Bool) :
    (ESP32Metrics_GetLogLevel l st b).st = st := by
  unfold ESP32Metrics_GetLogLevel
  split_ifs <;> rfl

/-- `IncrementErrorCount` never changes the cached temperature. -/
theorem incrementErrorCount_keeps_temperature (st : ESP32Metrics_t) :
    (ESP32Metrics_IncrementErrorCount st).2.last_temperature = st.last_temperature := by
  unfold ESP32Metrics_IncrementErrorCount
  split_ifs <;> rfl

/-- `Deinit` never changes the cached temperature. -/
theorem deinit_keeps_temperature (st : ESP32Metrics_t) :
    (ESP32Metrics_Deinit st).2.last_temperature = st.last_temperature := by
  unfold ESP32Metrics_Deinit
  split_ifs <;> rfl

/-- `GetTemperature` either keeps the cached temperature or stores the
value of a successful live read. -/
theorem getTemperature_temp_cases (r : Except Nat FVal) (st : ESP32Metrics_t) (b : Bool) :
    (ESP32Metrics_GetTemperature r st b).st.last_temperature = st.last_temperature ∨
    ∃ v, r = Except.ok v ∧
      (ESP32Metrics_GetTemperature r st b).st.last_temperature = v := by
  unfold ESP32Metrics_GetTemperature
  split_ifs <;> try exact Or.inl rfl
  cases r with
  | ok v => exact Or.inr ⟨v, rfl, rfl⟩
  | error c => exact Or.inl rfl

/-- `GetMetric` either keeps the cached temperature or stores the value
of a successful live read offered by its environment. -/
theorem getMetric_temp_cases (env : MetricsEnv) (t : Nat) (st : ESP32Metrics_t) (b : Bool) :
    (ESP32Metrics_GetMetric env t st b).st.last_temperature = st.last_temperature ∨
    ∃ v, env.tempRead = Except.ok v ∧
      (ESP32Metrics_GetMetric env t st b).st.last_temperature = v := by
  by_cases h1 : st.is_initialized = false
  · left; simp [ESP32Metrics_GetMetric, ESP32_METRIC_CPU_USAGE, ESP32_METRIC_UPTIME, ESP32_METRIC_WIFI_SIGNAL, ESP32_METRIC_WIFI_STATUS, ESP32_METRIC_TEMPERATURE, ESP32_METRIC_BROWNOUT_COUNT, ESP32_METRIC_REBOOT_REASON, ESP32_METRIC_WIFI_DATA_RATE, ESP32_METRIC_LOG_LEVEL, ESP32_METRIC_ERROR_COUNT, h1]
  by_cases h2 : b = true
  · left; simp [ESP32Metrics_GetMetric, ESP32_METRIC_CPU_USAGE, ESP32_METRIC_UPTIME, ESP32_METRIC_WIFI_SIGNAL, ESP32_METRIC_WIFI_STATUS, ESP32_METRIC_TEMPERATURE, ESP32_METRIC_BROWNOUT_COUNT, ESP32_METRIC_REBOOT_REASON, ESP32_METRIC_WIFI_DATA_RATE, ESP32_METRIC_LOG_LEVEL, ESP32_METRIC_ERROR_COUNT, h1, h2]
  by_cases h3 : t = ESP32_METRIC_CPU_USAGE
  · left
    simp [ESP32Metrics_GetMetric, ESP32_METRIC_CPU_USAGE, ESP32_METRIC_UPTIME, ESP32_METRIC_WIFI_SIGNAL, ESP32_METRIC_WIFI_STATUS, ESP32_METRIC_TEMPERATURE, ESP32_METRIC_BROWNOUT_COUNT, ESP32_METRIC_REBOOT_REASON, ESP32_METRIC_WIFI_DATA_RATE, ESP32_METRIC_LOG_LEVEL, ESP32_METRIC_ERROR_COUNT, h1, h2, h3, liftRes, getCpuUsage_keeps_temperature]
  by_cases h4 : t = ESP32_METRIC_UPTIME
  · left
    simp [ESP32Metrics_GetMetric, ESP32_METRIC_CPU_USAGE, ESP32_METRIC_UPTIME, ESP32_METRIC_WIFI_SIGNAL, ESP32_METRIC_WIFI_STATUS, ESP32_METRIC_TEMPERATURE, ESP32_METRIC_BROWNOUT_COUNT, ESP32_METRIC_REBOOT_REASON, ESP32_METRIC_WIFI_DATA_RATE, ESP32_METRIC_LOG_LEVEL, ESP32_METRIC_ERROR_COUNT, h1, h2, h3, h4, liftRes, getUptime_keeps_temperature]
  by_cases h5 : t = ESP32_METRIC_WIFI_SIGNAL
  · left
    simp [ESP32Metrics_GetMetric, ESP32_METRIC_CPU_USAGE, ESP32_METRIC_UPTIME, ESP32_METRIC_WIFI_SIGNAL, ESP32_METRIC_WIFI_STATUS, ESP32_METRIC_TEMPERATURE, ESP32_METRIC_BROWNOUT_COUNT, ESP32_METRIC_REBOOT_REASON, ESP32_METRIC_WIFI_DATA_RATE, ESP32_METRIC_LOG_LEVEL, ESP32_METRIC_ERROR_COUNT, h1, h2, h3, h4, h5, liftRes, getWifiSignal_state_id]
  by_cases h6 : t = ESP32_METRIC_WIFI_STATUS
  · left
    simp [ESP32Metrics_GetMetric, ESP32_METRIC_CPU_USAGE, ESP32_METRIC_UPTIME, ESP32_METRIC_WIFI_SIGNAL, ESP32_METRIC_WIFI_STATUS, ESP32_METRIC_TEMPERATURE, ESP32_METRIC_BROWNOUT_COUNT, ESP32_METRIC_REBOOT_REASON, ESP32_METRIC_WIFI_DATA_RATE, ESP32_METRIC_LOG_LEVEL, ESP32_METRIC_ERROR_COUNT, h1, h2, h3, h4, h5, h6, liftRes, getWifiStatus_state_id]
  by_cases h7 : t = ESP32_METRIC_TEMPERATURE
  · rcases getTemperature_temp_cases env.tempRead st false with hk | ⟨v, hv, he⟩
    · left
      simpa [ESP32Metrics_GetMetric, ESP32_METRIC_CPU_USAGE, ESP32_METRIC_UPTIME, ESP32_METRIC_WIFI_SIGNAL, ESP32_METRIC_WIFI_STATUS, ESP32_METRIC_TEMPERATURE, ESP32_METRIC_BROWNOUT_COUNT, ESP32_METRIC_REBOOT_REASON, ESP32_METRIC_WIFI_DATA_RATE, ESP32_METRIC_LOG_LEVEL, ESP32_METRIC_ERROR_COUNT, h1, h2, h3, h4, h5, h6, h7, liftRes] using hk
    · right
      refine ⟨v, hv, ?_⟩
      simpa [ESP32Metrics_GetMetric, ESP32_METRIC_CPU_USAGE, ESP32_METRIC_UPTIME, ESP32_METRIC_WIFI_SIGNAL, ESP32_METRIC_WIFI_STATUS, ESP32_METRIC_TEMPERATURE, ESP32_METRIC_BROWNOUT_COUNT, ESP32_METRIC_REBOOT_REASON, ESP32_METRIC_WIFI_DATA_RATE, ESP32_METRIC_LOG_LEVEL, ESP32_METRIC_ERROR_COUNT, h1, h2, h3, h4, h5, h6, h7, liftRes] using he
  by_cases h8 : t = ESP32_METRIC_BROWNOUT_COUNT
  · left
    simp [ESP32Metrics_GetMetric, ESP32_METRIC_CPU_USAGE, ESP32_METRIC_UPTIME, ESP32_METRIC_WIFI_SIGNAL, ESP32_METRIC_WIFI_STATUS, ESP32_METRIC_TEMPERATURE, ESP32_METRIC_BROWNOUT_COUNT, ESP32_METRIC_REBOOT_REASON, ESP32_METRIC_WIFI_DATA_RATE, ESP32_METRIC_LOG_LEVEL, ESP32_METRIC_ERROR_COUNT, h1, h2, h3, h4, h5, h6, h7, h8, liftRes,
      getBrownoutCount_state_id]
  by_cases h9 : t = ESP32_METRIC_REBOOT_REASON
  · left
    simp [ESP32Metrics_GetMetric, ESP32_METRIC_CPU_USAGE, ESP32_METRIC_UPTIME, ESP32_METRIC_WIFI_SIGNAL, ESP32_METRIC_WIFI_STATUS, ESP32_METRIC_TEMPERATURE, ESP32_METRIC_BROWNOUT_COUNT, ESP32_METRIC_REBOOT_REASON, ESP32_METRIC_WIFI_DATA_RATE, ESP32_METRIC_LOG_LEVEL, ESP32_METRIC_ERROR_COUNT, h1, h2, h3, h4, h5, h6, h7, h8, h9, liftRes,
      getRebootReason_state_id]
  by_cases h10 : t = ESP32_METRIC_WIFI_DATA_RATE
  · left
    simp [ESP32Metrics_GetMetric, ESP32_METRIC_CPU_USAGE, ESP32_METRIC_UPTIME, ESP32_METRIC_WIFI_SIGNAL, ESP32_METRIC_WIFI_STATUS, ESP32_METRIC_TEMPERATURE, ESP32_METRIC_BROWNOUT_COUNT, ESP32_METRIC_REBOOT_REASON, ESP32_METRIC_WIFI_DATA_RATE, ESP32_METRIC_LOG_LEVEL, ESP32_METRIC_ERROR_COUNT, h1, h2, h3, h4, h5, h6, h7, h8, h9, h10, liftRes,
      getWifiDataRate_state_id]
  by_cases h11 : t = ESP32_METRIC_LOG_LEVEL
  · left
    simp [ESP32Metrics_GetMetric, ESP32_METRIC_CPU_USAGE, ESP32_METRIC_UPTIME, ESP32_METRIC_WIFI_SIGNAL, ESP32_METRIC_WIFI_STATUS, ESP32_METRIC_TEMPERATURE, ESP32_METRIC_BROWNOUT_COUNT, ESP32_METRIC_REBOOT_REASON, ESP32_METRIC_WIFI_DATA_RATE, ESP32_METRIC_LOG_LEVEL, ESP32_METRIC_ERROR_COUNT, h1, h2, h3, h4, h5, h6, h7, h8, h9, h10, h11, liftRes,
      getLogLevel_state_id]
  by_cases h12 : t = ESP32_METRIC_ERROR_COUNT
  · left
    simp [ESP32Metrics_GetMetric, ESP32_METRIC_CPU_USAGE, ESP32_METRIC_UPTIME, ESP32_METRIC_WIFI_SIGNAL, ESP32_METRIC_WIFI_STATUS, ESP32_METRIC_TEMPERATURE, ESP32_METRIC_BROWNOUT_COUNT, ESP32_METRIC_REBOOT_REASON, ESP32_METRIC_WIFI_DATA_RATE, ESP32_METRIC_LOG_LEVEL, ESP32_METRIC_ERROR_COUNT, h1, h2, h3, h4, h5, h6, h7, h8, h9, h10, h11, h12,
      liftRes, getErrorCount_state_id]
  · left
    simp only [ESP32_METRIC_CPU_USAGE, ESP32_METRIC_UPTIME, ESP32_METRIC_WIFI_SIGNAL, ESP32_METRIC_WIFI_STATUS, ESP32_METRIC_TEMPERATURE, ESP32_METRIC_BROWNOUT_COUNT, ESP32_METRIC_REBOOT_REASON, ESP32_METRIC_WIFI_DATA_RATE, ESP32_METRIC_LOG_LEVEL, ESP32_METRIC_ERROR_COUNT] at h3 h4 h5 h6 h7 h8 h9 h10 h11 h12
    simp [ESP32Metrics_GetMetric, ESP32_METRIC_CPU_USAGE, ESP32_METRIC_UPTIME, ESP32_METRIC_WIFI_SIGNAL, ESP32_METRIC_WIFI_STATUS, ESP32_METRIC_TEMPERATURE, ESP32_METRIC_BROWNOUT_COUNT, ESP32_METRIC_REBOOT_REASON, ESP32_METRIC_WIFI_DATA_RATE, ESP32_METRIC_LOG_LEVEL, ESP32_METRIC_ERROR_COUNT, h1, h2, h3, h4, h5, h6, h7, h8, h9, h10, h11, h12]

/-- One step either keeps the cached temperature, stores a successfully
read value offered by the event's environment, or stores the NaN
sentinel. -/
theorem stepState_keeps_or_reads_temperature (e : Event) (st : ESP32Metrics_t) :
    (stepState e st).last_temperature = st.last_temperature ∨
    (stepState e st).last_temperature ∈ eventReads e ∨
    (stepState e st).last_temperature = FVal.nan := by
  cases e with
  | evInit env =>
    cases hb : st.is_initialized with
    | true => left; simp [stepState, ESP32Metrics_Init, hb]
    | false =>
      cases hs : env.seedRead <;>
        by_cases hc : env.configRet = ESP_OK <;>
          by_cases hst : env.startRet = ESP_OK <;>
            by_cases hbr : env.resetReason = ESP_RST_BROWNOUT <;>
              simp [stepState, ESP32Metrics_Init, update_reboot_reason, eventReads,
                hb, hc, hst, hbr, hs]
  | evDeinit => exact Or.inl (deinit_keeps_temperature st)
  | evCpu env b => exact Or.inl (getCpuUsage_keeps_temperature env st b)
  | evUptime n b => exact Or.inl (getUptime_keeps_temperature n st b)
  | evWifiSignal a b =>
    exact Or.inl (by rw [stepState, getWifiSignal_state_id])
  | evWifiStatus env b =>
    exact Or.inl (by rw [stepState, getWifiStatus_state_id])
  | evWifiRate env b =>
    exact Or.inl (by rw [stepState, getWifiDataRate_state_id])
  | evTemp r b =>
    rcases getTemperature_temp_cases r st b with h | ⟨v, hv, he⟩
    · exact Or.inl h
    · subst hv
      right; left
      simp [stepState, eventReads, he]
  | evBrownout b =>
    exact Or.inl (by rw [stepState, getBrownoutCount_state_id])
  | evErrCount b =>
    exact Or.inl (by rw [stepState, getErrorCount_state_id])
  | evIncErr => exact Or.inl (incrementErrorCount_keeps_temperature st)
  | evReboot b =>
    exact Or.inl (by rw [stepState, getRebootReason_state_id])
  | evLogLevel l b =>
    exact Or.inl (by rw [stepState, getLogLevel_state_id])
  | evMetric env t b =>
    rcases getMetric_temp_cases env t st b with h | ⟨v, hv, he⟩
    · exact Or.inl h
    · right; left; simp [stepState, eventReads, hv, he]

/-- C6 counterexample: run `Init` from the fresh boot state with the
sensor configuring and starting successfully but the seeding read
failing.  The reachable state has the capability enabled, yet its
`lastTemperatureC` is the zero-default left over from the static
initialiser — neither the NaN sentinel nor any successfully read value. -/
theorem c6_counterexample_default_after_failed_seed :
    (runTrace [Event.evInit ⟨0, 0, 0, Except.error 1, 1⟩]).temp_sensor_enabled = true ∧
    (runTrace [Event.evInit ⟨0, 0, 0, Except.error 1, 1⟩]).last_temperature = FVal.num 0 ∧
    (runTrace [Event.evInit ⟨0, 0, 0, Except.error 1, 1⟩]).last_temperature ≠ FVal.nan ∧
    successfulReads [Event.evInit ⟨0, 0, 0, Except.error 1, 1⟩] = [] :=
  ⟨rfl, rfl, by decide, rfl⟩

/-- C6 amended: in every reachable state, `lastTemperatureC` is the NaN
sentinel, a value offered by a successful sensor read along the trace, or
the zero default from the static initialiser (which survives when `Init`'s
seeding read fails before any successful read). -/
theorem c6_amended_temperature_provenance (tr : List Event) :
    (runTrace tr).last_temperature = FVal.nan ∨
    (runTrace tr).last_temperature ∈ successfulReads tr ∨
    (runTrace tr).last_temperature = FVal.num 0 := by
  induction tr with
  | nil => exact Or.inr (Or.inr rfl)
  | cons e tr ih =>
    have hrun : runTrace (e :: tr) = stepState e (runTrace tr) := rfl
    have hreads : successfulReads (e :: tr) = eventReads e ++ successfulReads tr := rfl
    rw [hrun, hreads]
    rcases stepState_keeps_or_reads_temperature e (runTrace tr) with hkeep | hmem | hnan
    · rw [hkeep]
      rcases ih with h | h | h
      · exact Or.inl h
      · exact Or.inr (Or.inl (List.mem_append_right _ h))
      · exact Or.inr (Or.inr h)
    · exact Or.inr (Or.inl (List.mem_append_left _ hmem))
    · exact Or.inl hnan
